import Mathlib

/-!
Verification of the pyDAPLink client transport and unix socket layer.

The definitions below are a shallow embedding of
`src/pyDAPLink/client/transport.py` (class `DAPLinkClientTransport`) and
`src/pyDAPLink/socket/unix_socket.py` (classes `UnixConnection` and
`UnixServer`).  Broker-visible traffic is recorded as a list of `Event`
values; the broker itself (the server process, which is not part of the
client sources) is modelled from the spec where its replies matter:
`board_select` replies are supplied as an oracle list, read results are
supplied as an oracle list consumed in issue order, and `flush` returns
the accumulated read results in order.
-/

namespace PyDAPLink

/-- A broker-visible request issued by the client transport, or a
connection lifecycle action.  One constructor per command the transport
sends in `transport.py`. -/
inductive Event
  | boardSelect (iid : Nat)
  | boardDeselect
  | boardEnumerate (vid pid : Nat)
  | dapInit (frequency packetCount : Option Nat)
  | dapUninit
  | writeDP (addr data : Nat)
  | readDP (addr : Nat)
  | writeAP (addr data : Nat)
  | readAP (addr : Nat)
  | writeMem (size addr data : Nat)
  | readMem (size addr : Nat)
  | writeBlock (addr : Nat) (data : List Nat)
  | readBlock (addr count : Nat)
  | flushReq
  | connOpen
  | connClose
deriving DecidableEq, Repr

/-- Reply of the broker to one `board_select` request: `ok` when the reply
carries `selected: true`, `busy` when it carries `selected: false`, and
`serverError etype` when the command channel raises a server-reported
error whose `type` field is `etype`.  (Modelled from the spec: the
command channel surfaces peer-reported errors as raised typed failures;
the channel implementation is not under `src/`.) -/
inductive SelectReply
  | ok
  | busy
  | serverError (etype : String)
deriving DecidableEq, Repr

/-- Outcome of `DAPLinkClientTransport.lock`.

`acquired` is a normal return.  `unableToLock` is the `CommandError`
raised by the `while/else` clause when the retry budget is exhausted; it
carries the identity of the device named in the message.
`nameErrorServerError` models the `NameError` that the Python runtime
raises when the `except ServerError` clause on line 114 of
`transport.py` is evaluated: the name `ServerError` is neither imported
nor defined in that module, so any channel-raised error turns into a
`NameError` before the handler body can run.  `noReply` is a model
artifact meaning the finite reply oracle was exhausted while the loop
was still running (the real loop would still be waiting on the broker). -/
inductive LockOutcome
  | acquired
  | unableToLock (vid pid iid : Nat)
  | nameErrorServerError
  | noReply
deriving DecidableEq, Repr

/-- The retry loop of `DAPLinkClientTransport.lock` (lines 104-123).
Arguments mirror the Python local state: the configured `_lock_attempts`
budget (`0` is the unbounded sentinel), the `attempts` counter, and the
oracle of `board_select` replies still to come.  Returns the outcome,
the unconsumed replies, and the requests issued (one `boardSelect` per
loop iteration that reached `_command`). -/
def lockLoop (vid pid iid lockAttempts : Nat) :
    Nat → List SelectReply → LockOutcome × List SelectReply × List Event
  | attempts, replies =>
    if lockAttempts ≠ 0 ∧ lockAttempts ≤ attempts then
      (.unableToLock vid pid iid, replies, [])
    else
      match replies with
      | [] => (.noReply, [], [])
      | .ok :: rs => (.acquired, rs, [.boardSelect iid])
      | .busy :: rs =>
        let r := lockLoop vid pid iid lockAttempts (attempts + 1) rs
        (r.1, r.2.1, .boardSelect iid :: r.2.2)
      | .serverError _ :: rs => (.nameErrorServerError, rs, [.boardSelect iid])

/-- Client-side state of one `DAPLinkClientTransport` object: the device
identity, the reentrant lock counter `_nested_locks`, the configured
`_lock_attempts` budget, the `deferred_transfer` flag, the `_buffer` of
pending read results, and the `_new_socket` ownership flag. -/
structure Session where
  vid : Nat
  pid : Nat
  iid : Nat
  nestedLocks : Nat
  lockAttempts : Nat
  deferredTransfer : Bool
  buffer : List Nat
  newSocket : Bool
deriving DecidableEq, Repr

/-- The `locked` property: `_nested_locks > 0`. -/
def Session.locked (s : Session) : Bool :=
  decide (0 < s.nestedLocks)

/-- `DAPLinkClientTransport.lock` (lines 98-123).  The counter is
incremented first; a reentrant call returns immediately with no
traffic; otherwise the retry loop runs against the reply oracle.
Returns the outcome, the updated session (the increment is kept even on
the error paths), the unconsumed replies, and the issued requests. -/
def Session.lock (s : Session) (replies : List SelectReply) :
    LockOutcome × Session × List SelectReply × List Event :=
  let s1 : Session := { s with nestedLocks := s.nestedLocks + 1 }
  if 1 < s1.nestedLocks then
    (.acquired, s1, replies, [])
  else
    let r := lockLoop s.vid s.pid s.iid s.lockAttempts 0 replies
    (r.1, s1, r.2.1, r.2.2)

/-- `DAPLinkClientTransport.unlock` (lines 125-131): send
`board_deselect` exactly when the counter is `1`, then decrement the
counter when it is positive. -/
def Session.unlock (s : Session) : Session × List Event :=
  let evs : List Event := if s.nestedLocks = 1 then [.boardDeselect] else []
  let s1 : Session :=
    if 0 < s.nestedLocks then { s with nestedLocks := s.nestedLocks - 1 } else s
  (s1, evs)

/-- One step of a lock-only trace: a call to `lock()` or to `unlock()`. -/
inductive LockOp
  | lockCall
  | unlockCall
deriving DecidableEq, Repr

/-- Run a sequence of `lock()`/`unlock()` calls on a session, threading
the `board_select` reply oracle and collecting all issued requests. -/
def runLockOps : Session → List SelectReply → List LockOp → Session × List SelectReply × List Event
  | s, replies, [] => (s, replies, [])
  | s, replies, .lockCall :: ops =>
    let r := s.lock replies
    let rest := runLockOps r.2.1 r.2.2.1 ops
    (rest.1, rest.2.1, r.2.2.2 ++ rest.2.2)
  | s, replies, .unlockCall :: ops =>
    let r := s.unlock
    let rest := runLockOps r.1 replies ops
    (rest.1, rest.2.1, r.2 ++ rest.2.2)

/-- Depth of the lock counter after a sequence of calls, clipping at `0`
on each `unlock` (this is what the code computes). -/
def clipFoldDepth (d : Nat) : List LockOp → Nat
  | [] => d
  | .lockCall :: ops => clipFoldDepth (d + 1) ops
  | .unlockCall :: ops => clipFoldDepth (d - 1) ops

/-- Number of `lock()` calls made while the depth is `0` (the transitions
from depth `0` to depth `1`). -/
def upTransitions (d : Nat) : List LockOp → Nat
  | [] => 0
  | .lockCall :: ops => (if d = 0 then 1 else 0) + upTransitions (d + 1) ops
  | .unlockCall :: ops => upTransitions (d - 1) ops

/-- Number of `unlock()` calls made while the depth is `1` (the
transitions from depth `1` to depth `0`). -/
def downTransitions (d : Nat) : List LockOp → Nat
  | [] => 0
  | .lockCall :: ops => downTransitions (d + 1) ops
  | .unlockCall :: ops => (if d = 1 then 1 else 0) + downTransitions (d - 1) ops

/-- Result of one transport operation: a normal return (possibly with a
value), a propagated lock error, the `IndexError` raised by
`self._buffer.pop(0)` on an empty buffer, or the `AssertionError` from
an invalid transfer size. -/
inductive Res
  | val (v : Option Nat)
  | unableToLock (vid pid iid : Nat)
  | nameErrorServerError
  | noReply
  | indexError
  | assertionError
deriving DecidableEq, Repr

/-- Embeds a raised lock error into the operation result type. -/
def LockOutcome.toRes : LockOutcome → Res
  | .acquired => .val none
  | .unableToLock v p i => .unableToLock v p i
  | .nameErrorServerError => .nameErrorServerError
  | .noReply => .noReply

/-- Broker-side state relevant to reads.  Modelled from the spec: read
commands are executed in issue order and `flush` replies carry the
ordered results (the server is not under `src/`).  `readVals` is the
oracle of values the broker will produce for successive read requests;
`serverReads` holds the results of reads issued but not yet returned by
a `flush`. -/
structure World where
  readVals : List Nat
  serverReads : List Nat
deriving DecidableEq, Repr

/-- Effect of one read command on the broker: consume the next oracle
value and queue it as the result of this read (`0` if the oracle is
exhausted; the theorems always supply enough values). -/
def World.issueRead : World → World
  | ⟨[], srv⟩ => ⟨[], srv ++ [0]⟩
  | ⟨v :: vs, srv⟩ => ⟨vs, srv ++ [v]⟩

/-- Combined state threaded through transport operations: the client
session, the `board_select` reply oracle, and the broker state. -/
structure Sys where
  session : Session
  replies : List SelectReply
  world : World
deriving DecidableEq, Repr

/-- The `with self:` context manager of the transport (lines 134-139):
`__enter__` calls `lock()`; if that raises, the body and `__exit__` are
skipped and the error propagates (with the counter increment kept).  If
the body runs, `unlock()` runs afterwards even when the body raised. -/
def withLock (st : Sys) (body : Sys → Res × Sys × List Event) : Res × Sys × List Event :=
  let L := st.session.lock st.replies
  let st1 : Sys := ⟨L.2.1, L.2.2.1, st.world⟩
  if L.1 = .acquired then
    let B := body st1
    let U := B.2.1.session.unlock
    (B.1, ⟨U.1, B.2.1.replies, B.2.1.world⟩, L.2.2.2 ++ B.2.2 ++ U.2)
  else
    (L.1.toRes, st1, L.2.2.2)

/-- `DAPLinkClientTransport.flush` (lines 263-271): under lock, send a
`flush` request; the reply carries the queued read results, which are
appended in order to `_buffer`. -/
def Sys.flush (st : Sys) : Res × Sys × List Event :=
  withLock st fun st1 =>
    (.val none,
     ⟨{ st1.session with buffer := st1.session.buffer ++ st1.world.serverReads },
      st1.replies,
      { st1.world with serverReads := [] }⟩,
     [Event.flushReq])

/-- `DAPLinkClientTransport._read` (lines 254-261): flush when `_buffer`
is empty, then `return self._buffer.pop(0)`. -/
def Sys.readC (st : Sys) : Res × Sys × List Event :=
  let F := if st.session.buffer.isEmpty then st.flush else (.val none, st, [])
  match F.1 with
  | .val _ =>
    match F.2.1.session.buffer with
    | [] => (.indexError, F.2.1, F.2.2)
    | v :: rest =>
      (.val (some v),
       ⟨{ F.2.1.session with buffer := rest }, F.2.1.replies, F.2.1.world⟩,
       F.2.2)
  | e => (e, F.2.1, F.2.2)

/-- `DAPLinkClientTransport._write` (lines 247-252): flush unless
deferred transfers are enabled. -/
def Sys.writeC (st : Sys) : Res × Sys × List Event :=
  if st.session.deferredTransfer then (.val none, st, []) else st.flush

/-- Read mode constants from `transport.py` lines 26-30. -/
def READ_START : Nat := 1

/-- Read immediately (the default mode). -/
def READ_NOW : Nat := 2

/-- Get the result of a read started with `READ_START`. -/
def READ_END : Nat := 3

/-- `DAPLinkClientTransport.readDP` (lines 204-209). -/
def Sys.readDP (st : Sys) (addr : Nat) (mode : Nat) : Res × Sys × List Event :=
  withLock st fun st1 =>
    let issue := mode == READ_NOW || mode == READ_START
    let st2 : Sys := if issue then ⟨st1.session, st1.replies, st1.world.issueRead⟩ else st1
    let evs : List Event := if issue then [Event.readDP addr] else []
    if mode == READ_NOW || mode == READ_END then
      let R := st2.readC
      (R.1, R.2.1, evs ++ R.2.2)
    else
      (.val none, st2, evs)

/-- `DAPLinkClientTransport.readAP` (lines 216-221). -/
def Sys.readAP (st : Sys) (addr : Nat) (mode : Nat) : Res × Sys × List Event :=
  withLock st fun st1 =>
    let issue := mode == READ_NOW || mode == READ_START
    let st2 : Sys := if issue then ⟨st1.session, st1.replies, st1.world.issueRead⟩ else st1
    let evs : List Event := if issue then [Event.readAP addr] else []
    if mode == READ_NOW || mode == READ_END then
      let R := st2.readC
      (R.1, R.2.1, evs ++ R.2.2)
    else
      (.val none, st2, evs)

/-- `DAPLinkClientTransport.readMem` (lines 229-235), including the
transfer-size assertion. -/
def Sys.readMem (st : Sys) (addr size mode : Nat) : Res × Sys × List Event :=
  if !(size == 8 || size == 16 || size == 32) then (.assertionError, st, [])
  else
    withLock st fun st1 =>
      let issue := mode == READ_NOW || mode == READ_START
      let st2 : Sys := if issue then ⟨st1.session, st1.replies, st1.world.issueRead⟩ else st1
      let evs : List Event := if issue then [Event.readMem size addr] else []
      if mode == READ_NOW || mode == READ_END then
        let R := st2.readC
        (R.1, R.2.1, evs ++ R.2.2)
      else
        (.val none, st2, evs)

/-- `DAPLinkClientTransport.readBlock32` (lines 242-245): issue the
block read, then always consume a result. -/
def Sys.readBlock32 (st : Sys) (addr count : Nat) : Res × Sys × List Event :=
  withLock st fun st1 =>
    let st2 : Sys := ⟨st1.session, st1.replies, st1.world.issueRead⟩
    let R := st2.readC
    (R.1, R.2.1, Event.readBlock addr count :: R.2.2)

/-- `DAPLinkClientTransport.writeDP` (lines 199-202). -/
def Sys.writeDP (st : Sys) (addr data : Nat) : Res × Sys × List Event :=
  withLock st fun st1 =>
    let W := st1.writeC
    (W.1, W.2.1, Event.writeDP addr data :: W.2.2)

/-- `DAPLinkClientTransport.writeAP` (lines 211-214). -/
def Sys.writeAP (st : Sys) (addr data : Nat) : Res × Sys × List Event :=
  withLock st fun st1 =>
    let W := st1.writeC
    (W.1, W.2.1, Event.writeAP addr data :: W.2.2)

/-- `DAPLinkClientTransport.writeMem` (lines 223-227), including the
transfer-size assertion. -/
def Sys.writeMem (st : Sys) (addr data size : Nat) : Res × Sys × List Event :=
  if !(size == 8 || size == 16 || size == 32) then (.assertionError, st, [])
  else
    withLock st fun st1 =>
      let W := st1.writeC
      (W.1, W.2.1, Event.writeMem size addr data :: W.2.2)

/-- `DAPLinkClientTransport.writeBlock32` (lines 237-240). -/
def Sys.writeBlock32 (st : Sys) (addr : Nat) (data : List Nat) : Res × Sys × List Event :=
  withLock st fun st1 =>
    let W := st1.writeC
    (W.1, W.2.1, Event.writeBlock addr data :: W.2.2)

/-- One write operation, for stating properties about sequences of
consecutive writes. -/
inductive WriteOp
  | dp (addr data : Nat)
  | ap (addr data : Nat)
  | mem (addr data size : Nat)
  | block (addr : Nat) (data : List Nat)
deriving DecidableEq, Repr

/-- The transfer-size precondition of `writeMem`. -/
def WriteOp.sizeOk : WriteOp → Bool
  | .mem _ _ size => size == 8 || size == 16 || size == 32
  | _ => true

/-- The request a write operation sends. -/
def WriteOp.toEvent : WriteOp → Event
  | .dp a d => .writeDP a d
  | .ap a d => .writeAP a d
  | .mem a d size => .writeMem size a d
  | .block a d => .writeBlock a d

/-- Dispatch one write operation to the corresponding transport method. -/
def Sys.doWrite (st : Sys) : WriteOp → Res × Sys × List Event
  | .dp a d => st.writeDP a d
  | .ap a d => st.writeAP a d
  | .mem a d size => st.writeMem a d size
  | .block a d => st.writeBlock32 a d

/-- Run consecutive write operations, stopping at the first raised
error, collecting all issued requests. -/
def Sys.runWrites (st : Sys) : List WriteOp → Sys × List Event
  | [] => (st, [])
  | op :: ops =>
    let R := st.doWrite op
    match R.1 with
    | .val _ =>
      let rest := R.2.1.runWrites ops
      (rest.1, R.2.2 ++ rest.2)
    | _ => (R.2.1, R.2.2)

/-- `DAPLinkClientTransport.init` (lines 58-80): store the retry budget
and the socket-ownership flag; when `new_socket` is set, create and
initialize an owned client connection and enumerate the board
(modelled from the spec as the `connOpen` and `boardEnumerate` events;
the `client` module is not under `src/`); then `lock()` and send
`dap_init`. -/
def Sys.init (st : Sys) (frequency packetCount : Option Nat)
    (lockAttempts : Nat) (newSocket : Bool) : Res × Sys × List Event :=
  let s1 : Session := { st.session with lockAttempts := lockAttempts, newSocket := newSocket }
  let evs0 : List Event :=
    if newSocket then [Event.connOpen, Event.boardEnumerate s1.vid s1.pid] else []
  let L := s1.lock st.replies
  match L.1 with
  | .acquired =>
    (.val none, ⟨L.2.1, L.2.2.1, st.world⟩,
     evs0 ++ L.2.2.2 ++ [Event.dapInit frequency packetCount])
  | o => (o.toRes, ⟨L.2.1, L.2.2.1, st.world⟩, evs0 ++ L.2.2.2)

/-- `DAPLinkClientTransport.uninit` (lines 82-87): under `with self:`
send `dap_uninit`; afterwards, when the session owns its connection,
`self._client.uninit()` closes it (modelled from the spec as the
`connClose` event; the `client` module is not under `src/`). -/
def Sys.uninit (st : Sys) : Res × Sys × List Event :=
  let B := withLock st fun st1 => (.val none, st1, [Event.dapUninit])
  match B.1 with
  | .val _ =>
    if B.2.1.session.newSocket then (.val none, B.2.1, B.2.2 ++ [Event.connClose])
    else (.val none, B.2.1, B.2.2)
  | e => (e, B.2.1, B.2.2)

/-- A concrete session used by witnesses and counterexamples: device
`0001:0002:3`, unlocked, retry budget `2`, deferred transfers off. -/
def demoSession : Session :=
  { vid := 1, pid := 2, iid := 3, nestedLocks := 0, lockAttempts := 2,
    deferredTransfer := false, buffer := [], newSocket := true }

/-- A broker with no queued reads and an empty read oracle. -/
def demoWorld : World := ⟨[], []⟩

/-- The demo session locked once, with three values in the read oracle,
used by witnesses for the read-pipelining and write-flush claims. -/
def demoSysLocked : Sys :=
  ⟨{ demoSession with nestedLocks := 1 }, [], ⟨[10, 20, 30], []⟩⟩

/-- The demo session locked once with deferred transfers enabled. -/
def demoSysDeferred : Sys :=
  ⟨{ demoSession with nestedLocks := 1, deferredTransfer := true }, [], ⟨[], []⟩⟩

/-- Result of one `UnixConnection` call: data returned normally, a
`socket.error` raised by the OS layer, or the `ConnectionFailure` of
the spec taxonomy (never produced by this code). -/
inductive ConnRes
  | ok (data : List Nat)
  | osError
  | connectionFailure
deriving DecidableEq, Repr

/-- The operating-system stream endpoint under a `UnixConnection`:
`recvData` is the oracle of chunks successive `recv` calls deliver (an
exhausted oracle models the peer having closed, so `recv` returns the
empty chunk); `sendResults` is the oracle of `sendall` outcomes (`true`
is success, exhausted defaults to success); `sent` records delivered
payloads. -/
structure OSStream where
  recvData : List (List Nat)
  sendResults : List Bool
  sent : List (List Nat)
deriving DecidableEq, Repr

/-- One OS `recv` call. -/
def OSStream.osRecv : OSStream → List Nat × OSStream
  | ⟨[], sr, sent⟩ => ([], ⟨[], sr, sent⟩)
  | ⟨d :: rest, sr, sent⟩ => (d, ⟨rest, sr, sent⟩)

/-- One OS `sendall` call: `true` means the whole buffer was sent,
`false` means the OS raised `socket.error`. -/
def OSStream.osSendall (o : OSStream) (data : List Nat) : Bool × OSStream :=
  match o.sendResults with
  | [] => (true, { o with sent := o.sent ++ [data] })
  | b :: rest =>
    (b, { o with sendResults := rest, sent := if b then o.sent ++ [data] else o.sent })

/-- `UnixConnection` (lines 29-55 of `unix_socket.py`): a wrapped OS
stream plus the `_isalive` flag. -/
structure UnixConnection where
  sock : OSStream
  isalive : Bool
deriving DecidableEq, Repr

/-- `UnixConnection.send` (lines 34-35): delegate to `sendall` with no
liveness check; an OS failure surfaces as `socket.error`, never as a
`ConnectionFailure`. -/
def UnixConnection.send (c : UnixConnection) (data : List Nat) : ConnRes × UnixConnection :=
  let r := c.sock.osSendall data
  (if r.1 then .ok [] else .osError, { c with sock := r.2 })

/-- `UnixConnection.recv` (lines 37-42): read a chunk; an empty chunk
sets `_isalive` to false; the chunk is returned either way. -/
def UnixConnection.recv (c : UnixConnection) (_size : Nat) : ConnRes × UnixConnection :=
  let r := c.sock.osRecv
  let alive1 := if r.1.isEmpty then false else c.isalive
  (.ok r.1, { c with sock := r.2, isalive := alive1 })

/-- Attributes of the file at the listener address path, as seen by
`os.stat` and `os.access`. -/
structure FileInfo where
  isSock : Bool
  writable : Bool
deriving DecidableEq, Repr

/-- The filesystem at the listener address path: `none` when no file
exists there. -/
structure FS where
  file : Option FileInfo
deriving DecidableEq, Repr

/-- `UnixServer` (lines 70-129 of `unix_socket.py`): the `_isalive`
flag and the contents written into the interrupt pair by `shutdown`. -/
structure UnixServer where
  isalive : Bool
  pipe : List String
deriving DecidableEq, Repr

/-- Filesystem actions taken by `UnixServer.open`. -/
inductive OpenEvent
  | unlink
  | bind
  | listen
deriving DecidableEq, Repr

/-- `UnixServer.open` (lines 76-101): remove a pre-existing file at the
address exactly when `stat` reports a socket special file and `access`
reports it writable (any `OSError` from `stat` is swallowed); then bind
and listen.  Modelled from POSIX: `bind` on `AF_UNIX` raises `OSError`
when a file still exists at the path, and otherwise creates a fresh
socket file there.  Returns whether `open` returned normally, plus the
updated server, filesystem, and action trace. -/
def UnixServer.openServer (srv : UnixServer) (fs : FS) :
    Bool × UnixServer × FS × List OpenEvent :=
  let cleaned : FS × List OpenEvent :=
    match fs.file with
    | some f => if f.isSock && f.writable then (⟨none⟩, [.unlink]) else (fs, [])
    | none => (fs, [])
  match cleaned.1.file with
  | some _ => (false, srv, cleaned.1, cleaned.2)
  | none =>
    (true, { srv with isalive := true },
     ⟨some ⟨true, true⟩⟩, cleaned.2 ++ [.bind, .listen])

/-- `UnixServer.shutdown` (lines 116-119): clear `_isalive` and write
the sentinel into the interrupt pair to wake a pending `accept`. -/
def UnixServer.shutdown (srv : UnixServer) : UnixServer :=
  { srv with isalive := false, pipe := srv.pipe ++ ["shutdown"] }

/-- `UnixServer.accept` (lines 103-111): after the multiplexed wait
returns, an `_isalive` check decides between the explicit no-connection
result and wrapping the pending stream (`pending` is the stream the OS
would hand out, `none` when the wait was woken only by the interrupt
pair). -/
def UnixServer.accept (srv : UnixServer) (pending : Option OSStream) : Option UnixConnection :=
  if srv.isalive then pending.map (fun c => ⟨c, true⟩) else none

/-! ## Lemmas about the lock retry loop -/

/-- Unfolding: the loop condition is false, so the `while/else` clause
raises at once without touching the channel. -/
theorem lockLoop_stop (vid pid iid budget attempts : Nat) (replies : List SelectReply)
    (h : budget ≠ 0 ∧ budget ≤ attempts) :
    lockLoop vid pid iid budget attempts replies =
      (LockOutcome.unableToLock vid pid iid, replies, []) := by
  rw [lockLoop.eq_def]
  dsimp only
  rw [if_pos h]

/-- Unfolding: one more round whose reply confirms selection. -/
theorem lockLoop_ok_step (vid pid iid budget attempts : Nat) (rs : List SelectReply)
    (h : ¬(budget ≠ 0 ∧ budget ≤ attempts)) :
    lockLoop vid pid iid budget attempts (SelectReply.ok :: rs) =
      (LockOutcome.acquired, rs, [Event.boardSelect iid]) := by
  rw [lockLoop.eq_def]
  dsimp only
  rw [if_neg h]

/-- Unfolding: one more round whose reply reports the device busy. -/
theorem lockLoop_busy_step (vid pid iid budget attempts : Nat) (rs : List SelectReply)
    (h : ¬(budget ≠ 0 ∧ budget ≤ attempts)) :
    lockLoop vid pid iid budget attempts (SelectReply.busy :: rs) =
      ((lockLoop vid pid iid budget (attempts + 1) rs).1,
       (lockLoop vid pid iid budget (attempts + 1) rs).2.1,
       Event.boardSelect iid :: (lockLoop vid pid iid budget (attempts + 1) rs).2.2) := by
  rw [lockLoop.eq_def]
  dsimp only
  rw [if_neg h]

/-- Unfolding: one more round in which the channel raises a server
error, so the broken handler raises `NameError`. -/
theorem lockLoop_err_step (vid pid iid budget attempts : Nat) (etype : String)
    (rs : List SelectReply) (h : ¬(budget ≠ 0 ∧ budget ≤ attempts)) :
    lockLoop vid pid iid budget attempts (SelectReply.serverError etype :: rs) =
      (LockOutcome.nameErrorServerError, rs, [Event.boardSelect iid]) := by
  rw [lockLoop.eq_def]
  dsimp only
  rw [if_neg h]

theorem lockLoop_busy_ok (vid pid iid : Nat) :
    ∀ (N budget attempts : Nat) (rest : List SelectReply),
      budget = 0 ∨ attempts + N < budget →
      lockLoop vid pid iid budget attempts
          (List.replicate N SelectReply.busy ++ SelectReply.ok :: rest) =
        (LockOutcome.acquired, rest, List.replicate (N + 1) (Event.boardSelect iid)) := by
  intro N
  induction N with
  | zero =>
    intro budget attempts rest h
    simpa using lockLoop_ok_step vid pid iid budget attempts rest (by omega)
  | succ n ih =>
    intro budget attempts rest h
    have hrec := ih budget (attempts + 1) rest (by omega)
    simp only [List.replicate_succ, List.cons_append]
    rw [lockLoop_busy_step vid pid iid budget attempts _ (by omega), hrec]
    simp [List.replicate_succ]

theorem lockLoop_busy_exhaust (vid pid iid : Nat) :
    ∀ (N budget attempts : Nat) (rest : List SelectReply),
      1 ≤ budget → budget ≤ attempts + N → attempts ≤ budget →
      lockLoop vid pid iid budget attempts
          (List.replicate N SelectReply.busy ++ rest) =
        (LockOutcome.unableToLock vid pid iid,
         List.replicate (attempts + N - budget) SelectReply.busy ++ rest,
         List.replicate (budget - attempts) (Event.boardSelect iid)) := by
  intro N
  induction N with
  | zero =>
    intro budget attempts rest h1 h2 h3
    have ha : attempts + 0 - budget = 0 := by omega
    have hb : budget - attempts = 0 := by omega
    rw [ha, hb, lockLoop_stop vid pid iid budget attempts _ (by omega)]
    simp
  | succ n ih =>
    intro budget attempts rest h1 h2 h3
    by_cases hba : budget ≤ attempts
    · have ha : attempts + (n + 1) - budget = n + 1 := by omega
      have hb : budget - attempts = 0 := by omega
      rw [ha, hb, lockLoop_stop vid pid iid budget attempts _ (by omega)]
      simp
    · have hrec := ih budget (attempts + 1) rest (by omega) (by omega) (by omega)
      have ha : attempts + 1 + n - budget = attempts + (n + 1) - budget := by omega
      have hb : budget - attempts = budget - (attempts + 1) + 1 := by omega
      rw [List.replicate_succ, List.cons_append,
        lockLoop_busy_step vid pid iid budget attempts _ (by omega), hrec]
      rw [hb, ha]
      simp [List.replicate_succ]

/-- A reentrant `lock()` call only increments the counter and issues
nothing. -/
theorem lock_reentrant (s : Session) (replies : List SelectReply)
    (h : 0 < s.nestedLocks) :
    s.lock replies =
      (LockOutcome.acquired, { s with nestedLocks := s.nestedLocks + 1 }, replies, []) := by
  simp only [Session.lock]
  rw [if_pos (by simpa using h)]

/-- A fresh `lock()` call whose first reply confirms selection issues
exactly one `board_select`. -/
theorem lock_fresh_ok (s : Session) (rest : List SelectReply) (h : s.nestedLocks = 0) :
    s.lock (SelectReply.ok :: rest) =
      (LockOutcome.acquired, { s with nestedLocks := 1 }, rest, [Event.boardSelect s.iid]) := by
  have hrun := lockLoop_busy_ok s.vid s.pid s.iid 0 s.lockAttempts 0 rest (by omega)
  simp only [Session.lock, h]
  rw [if_neg (by omega)]
  simp only [List.replicate, List.nil_append] at hrun
  simp [hrun]

theorem unlock_at_zero (s : Session) (h : s.nestedLocks = 0) :
    s.unlock = (s, []) := by
  simp [Session.unlock, h]

theorem unlock_at_one (s : Session) (h : s.nestedLocks = 1) :
    s.unlock = ({ s with nestedLocks := 0 }, [Event.boardDeselect]) := by
  simp [Session.unlock, h]

theorem unlock_deep (s : Session) (h : 1 < s.nestedLocks) :
    s.unlock = ({ s with nestedLocks := s.nestedLocks - 1 }, []) := by
  have h1 : s.nestedLocks ≠ 1 := by omega
  have h2 : 0 < s.nestedLocks := by omega
  simp [Session.unlock, h1, h2]

/-- Behaviour of a `lock()`/`unlock()` call sequence when every
`board_select` reply confirms selection: the final depth is the fold
that clips at `0` on each `unlock`, and the broker sees one
`board_select` per `0 → 1` transition and one `board_deselect` per
`1 → 0` transition. -/
theorem runLockOps_all_ok :
    ∀ (ops : List LockOp) (s : Session) (replies : List SelectReply),
      (∀ r ∈ replies, r = SelectReply.ok) → ops.length ≤ replies.length →
      ((runLockOps s replies ops).1.nestedLocks = clipFoldDepth s.nestedLocks ops)
      ∧ ((runLockOps s replies ops).2.2.count (Event.boardSelect s.iid)
          = upTransitions s.nestedLocks ops)
      ∧ ((runLockOps s replies ops).2.2.count Event.boardDeselect
          = downTransitions s.nestedLocks ops) := by
  intro ops
  induction ops with
  | nil =>
    intro s replies _ _
    simp [runLockOps, clipFoldDepth, upTransitions, downTransitions]
  | cons op ops ih =>
    intro s replies hok hlen
    cases op with
    | lockCall =>
      by_cases hzero : s.nestedLocks = 0
      · cases replies with
        | nil => simp at hlen
        | cons r rs =>
          have hr : r = SelectReply.ok := hok r (by simp)
          subst hr
          have hrest := ih { s with nestedLocks := 1 } rs
            (fun x hx => hok x (by simp [hx])) (by simpa using Nat.le_of_succ_le_succ hlen)
          simp only [runLockOps, lock_fresh_ok s rs hzero]
          simp only at hrest
          simp [List.count_cons, hzero, hrest.1, hrest.2.1, hrest.2.2,
            clipFoldDepth, upTransitions, downTransitions]
          try omega
      · have hpos : 0 < s.nestedLocks := Nat.pos_of_ne_zero hzero
        have hrest := ih { s with nestedLocks := s.nestedLocks + 1 } replies hok
          (by simpa using Nat.le_of_succ_le hlen)
        simp only [runLockOps, lock_reentrant s replies hpos]
        simp only at hrest
        simp [hzero, hrest.1, hrest.2.1, hrest.2.2,
          clipFoldDepth, upTransitions, downTransitions]
        try omega
    | unlockCall =>
      have hlen1 : ops.length ≤ replies.length := by
        simpa using Nat.le_of_succ_le hlen
      rcases hdep : s.nestedLocks with _ | _ | d
      · have hrest := ih s replies hok hlen1
        simp only [runLockOps, unlock_at_zero s hdep]
        simp [hdep, hrest.1, hrest.2.1, hrest.2.2,
          clipFoldDepth, upTransitions, downTransitions]
        try omega
      · have hrest := ih { s with nestedLocks := 0 } replies hok hlen1
        simp only [runLockOps, unlock_at_one s hdep]
        simp only at hrest
        simp [hdep, hrest.1, hrest.2.1, hrest.2.2, List.count_cons,
          clipFoldDepth, upTransitions, downTransitions]
        try omega
      · have hdeep : 1 < s.nestedLocks := by omega
        have hrest := ih { s with nestedLocks := s.nestedLocks - 1 } replies hok hlen1
        simp only [runLockOps, unlock_deep s hdeep]
        simp only [hdep, Nat.add_sub_cancel] at hrest
        simp [hdep, Nat.add_sub_cancel, hrest.1, hrest.2.1, hrest.2.2,
          clipFoldDepth, upTransitions, downTransitions]
        try omega

/-! ## Claims about locking -/

/-- C1 (amended): for every finite sequence of `lock()`/`unlock()` calls
in which every `board_select` reply confirms selection, `lockDepth`
stays non-negative and equals the fold of the sequence that clips at
`0` at each step (an `unlock` at depth `0` is a no-op); the
broker-visible `board_select` request is issued exactly once per
transition from depth `0` to `1` and `board_deselect` exactly once per
transition from depth `1` to `0`, regardless of reentrancy depth; and
`unlock()` when the depth is `0` changes nothing and sends nothing.
The original formula, the number of lock calls minus the number of
unlock calls clipped at `0` once at the end, fails; see the
counterexample. -/
theorem lock_unlock_depth_and_traffic (s : Session) (ops : List LockOp) :
    ((runLockOps s (List.replicate ops.length SelectReply.ok) ops).1.nestedLocks
        = clipFoldDepth s.nestedLocks ops)
    ∧ ((runLockOps s (List.replicate ops.length SelectReply.ok) ops).2.2.count
          (Event.boardSelect s.iid) = upTransitions s.nestedLocks ops)
    ∧ ((runLockOps s (List.replicate ops.length SelectReply.ok) ops).2.2.count
          Event.boardDeselect = downTransitions s.nestedLocks ops)
    ∧ (s.nestedLocks = 0 → s.unlock = (s, [])) := by
  have h := runLockOps_all_ok ops s (List.replicate ops.length SelectReply.ok)
    (fun r hr => List.eq_of_mem_replicate hr) (by simp)
  exact ⟨h.1, h.2.1, h.2.2, fun h0 => unlock_at_zero s h0⟩

/-- C1 witness: `unlock()` on the fresh demo session is a no-op. -/
theorem lock_unlock_depth_and_traffic_witness :
    demoSession.unlock = (demoSession, []) :=
  (lock_unlock_depth_and_traffic demoSession []).2.2.2 rfl

/-- C1 counterexample: after the call sequence `unlock(); lock()` on a
fresh unlocked session (confirming replies available), the stored depth
is `1`, while the formula of the claim, number of lock calls minus
number of unlock calls clipped at `0`, gives `0`. -/
theorem lock_depth_clip_counterexample :
    ((runLockOps demoSession (List.replicate 2 SelectReply.ok)
        [LockOp.unlockCall, LockOp.lockCall]).1.nestedLocks = 1)
    ∧ ([LockOp.unlockCall, LockOp.lockCall].count LockOp.lockCall
        - [LockOp.unlockCall, LockOp.lockCall].count LockOp.unlockCall = 0)
    ∧ ¬((runLockOps demoSession (List.replicate 2 SelectReply.ok)
        [LockOp.unlockCall, LockOp.lockCall]).1.nestedLocks
        = [LockOp.unlockCall, LockOp.lockCall].count LockOp.lockCall
          - [LockOp.unlockCall, LockOp.lockCall].count LockOp.unlockCall) := by
  decide

/-- C2: with the session unlocked and the broker answering busy for
exactly the first `N` `board_select` requests and confirming
thereafter, `lock()` returns normally on attempt `N + 1`, issuing
`N + 1` requests, whenever the budget is the unbounded sentinel `0` or
at least `N + 1` (so with the sentinel it retries until the confirming
reply); and it raises the lock failure when the budget is between `1`
and `N`, after issuing exactly budget-many requests. -/
theorem lock_retry_budget (s : Session) (N : Nat) (rest : List SelectReply)
    (h0 : s.nestedLocks = 0) :
    ((s.lockAttempts = 0 ∨ N < s.lockAttempts) →
      s.lock (List.replicate N SelectReply.busy ++ SelectReply.ok :: rest) =
        (LockOutcome.acquired, { s with nestedLocks := 1 }, rest,
         List.replicate (N + 1) (Event.boardSelect s.iid)))
    ∧ (1 ≤ s.lockAttempts → s.lockAttempts ≤ N →
      s.lock (List.replicate N SelectReply.busy ++ SelectReply.ok :: rest) =
        (LockOutcome.unableToLock s.vid s.pid s.iid, { s with nestedLocks := 1 },
         List.replicate (N - s.lockAttempts) SelectReply.busy ++ SelectReply.ok :: rest,
         List.replicate s.lockAttempts (Event.boardSelect s.iid))) := by
  constructor
  · intro hbudget
    have hrun := lockLoop_busy_ok s.vid s.pid s.iid N s.lockAttempts 0 rest (by omega)
    simp only [Session.lock, h0]
    rw [if_neg (by omega)]
    simp [hrun]
  · intro hb1 hb2
    have hrun := lockLoop_busy_exhaust s.vid s.pid s.iid N s.lockAttempts 0
      (SelectReply.ok :: rest) hb1 (by omega) (by omega)
    simp only [Nat.zero_add, Nat.sub_zero] at hrun
    simp only [Session.lock, h0]
    rw [if_neg (by omega)]
    simp [hrun]

/-- C2 witness: with budget `2`, one busy reply then a confirming one
succeeds after two requests, while three busy replies then a confirming
one exhaust the budget after two requests. -/
theorem lock_retry_budget_witness :
    (demoSession.lock (List.replicate 1 SelectReply.busy ++ SelectReply.ok :: []) =
      (LockOutcome.acquired, { demoSession with nestedLocks := 1 }, [],
       List.replicate 2 (Event.boardSelect demoSession.iid)))
    ∧ (demoSession.lock (List.replicate 3 SelectReply.busy ++ SelectReply.ok :: []) =
      (LockOutcome.unableToLock demoSession.vid demoSession.pid demoSession.iid,
       { demoSession with nestedLocks := 1 },
       List.replicate 1 SelectReply.busy ++ SelectReply.ok :: [],
       List.replicate 2 (Event.boardSelect demoSession.iid))) :=
  ⟨(lock_retry_budget demoSession 1 [] rfl).1 (Or.inr (by decide)),
   (lock_retry_budget demoSession 3 [] rfl).2 (by decide) (by decide)⟩

/-- C3 (the code evaluated at the failing input): when the channel
raises a server-reported error during `lock()`, of any `type`
(including the `KeyError` that signals an unknown device id), the
`except ServerError` clause on line 114 itself raises `NameError`,
because the name `ServerError` is neither imported nor defined in
`transport.py`.  The caller never receives the `CommandError`
identifying the device that lines 116-117 try to build, and errors of
other types do not propagate unchanged either. -/
theorem lock_server_error_raises_name_error (s : Session) (etype : String)
    (rest : List SelectReply) (h0 : s.nestedLocks = 0) :
    s.lock (SelectReply.serverError etype :: rest) =
      (LockOutcome.nameErrorServerError, { s with nestedLocks := 1 }, rest,
       [Event.boardSelect s.iid]) := by
  have hrun := lockLoop_err_step s.vid s.pid s.iid s.lockAttempts 0 etype rest (by omega)
  simp only [Session.lock, h0]
  rw [if_neg (by omega)]
  simp [hrun]

/-- C3 witness: a `KeyError` reply on the demo session. -/
theorem lock_server_error_raises_name_error_witness :
    demoSession.lock [SelectReply.serverError "KeyError"] =
      (LockOutcome.nameErrorServerError, { demoSession with nestedLocks := 1 }, [],
       [Event.boardSelect demoSession.iid]) :=
  lock_server_error_raises_name_error demoSession "KeyError" [] rfl

/-- C10: `lock()` increments the nesting counter on entry and never
rolls it back: whatever the outcome, including the raised budget
exhaustion and the `NameError` from an error reply, the stored depth is
the old depth plus one, so a failed outermost `lock()` leaves `locked`
reporting true even though no broker-side selection is held. -/
theorem lock_failure_keeps_increment (s : Session) (replies : List SelectReply) :
    ((s.lock replies).2.1).nestedLocks = s.nestedLocks + 1
    ∧ (s.nestedLocks = 0 → (s.lock replies).1 ≠ LockOutcome.acquired →
        ((s.lock replies).2.1).locked = true) := by
  have h1 : (s.lock replies).2.1 = { s with nestedLocks := s.nestedLocks + 1 } := by
    simp only [Session.lock]
    split <;> rfl
  refine ⟨by rw [h1], fun _ _ => ?_⟩
  rw [h1, Session.locked]
  simp

/-- C10 witness: a failed outermost `lock()` (budget `2`, two busy
replies) leaves `locked` true. -/
theorem lock_failure_keeps_increment_witness :
    ((demoSession.lock [SelectReply.busy, SelectReply.busy]).2.1).locked = true :=
  (lock_failure_keeps_increment demoSession [SelectReply.busy, SelectReply.busy]).2
    rfl (by decide)

/-! ## Lemmas about the scoped-lock wrapper and the transfer operations -/

/-- Running `with self:` on an already locked session: the reentrant
lock and the matching unlock produce no traffic, and the body runs on
the state with the depth bumped by one.  The hypothesis `hpres` states
that the body preserves the bumped depth. -/
theorem withLock_locked (st : Sys) (body : Sys → Res × Sys × List Event)
    (h : 0 < st.session.nestedLocks)
    (hpres : (body ⟨{ st.session with nestedLocks := st.session.nestedLocks + 1 },
        st.replies, st.world⟩).2.1.session.nestedLocks = st.session.nestedLocks + 1) :
    withLock st body =
      ((body ⟨{ st.session with nestedLocks := st.session.nestedLocks + 1 },
          st.replies, st.world⟩).1,
       ⟨{ (body ⟨{ st.session with nestedLocks := st.session.nestedLocks + 1 },
            st.replies, st.world⟩).2.1.session with
          nestedLocks := st.session.nestedLocks },
        (body ⟨{ st.session with nestedLocks := st.session.nestedLocks + 1 },
          st.replies, st.world⟩).2.1.replies,
        (body ⟨{ st.session with nestedLocks := st.session.nestedLocks + 1 },
          st.replies, st.world⟩).2.1.world⟩,
       (body ⟨{ st.session with nestedLocks := st.session.nestedLocks + 1 },
          st.replies, st.world⟩).2.2) := by
  unfold withLock
  rw [lock_reentrant st.session st.replies h]
  dsimp only
  rw [unlock_deep _ (by rw [hpres]; omega)]
  rw [hpres]
  simp

/-- `flush` on a locked session: one `flush` request; the queued reads
move, in order, to the back of `_buffer`. -/
theorem flush_locked (st : Sys) (h : 0 < st.session.nestedLocks) :
    st.flush =
      (Res.val none,
       ⟨{ st.session with buffer := st.session.buffer ++ st.world.serverReads },
        st.replies, { st.world with serverReads := [] }⟩,
       [Event.flushReq]) := by
  rw [Sys.flush, withLock_locked st _ h rfl]

/-- `_read` with a non-empty buffer: no traffic, pop the head. -/
theorem readC_nonempty (st : Sys) (v : Nat) (rest : List Nat)
    (hbuf : st.session.buffer = v :: rest) :
    st.readC =
      (Res.val (some v),
       ⟨{ st.session with buffer := rest }, st.replies, st.world⟩, []) := by
  rw [Sys.readC]
  simp [hbuf]

/-- `_read` with an empty buffer on a locked session: one flush, then
pop the oldest queued result. -/
theorem readC_empty_locked (st : Sys) (v : Nat) (vs : List Nat)
    (h : 0 < st.session.nestedLocks) (hbuf : st.session.buffer = [])
    (hsrv : st.world.serverReads = v :: vs) :
    st.readC =
      (Res.val (some v),
       ⟨{ st.session with buffer := vs }, st.replies,
        { st.world with serverReads := [] }⟩,
       [Event.flushReq]) := by
  rw [Sys.readC]
  simp only [hbuf, List.isEmpty_nil, if_true]
  rw [flush_locked st h]
  simp [hbuf, hsrv]

/-- `readDP` in `READ_START` mode on a locked session: issue the read
request, consume nothing. -/
theorem readDP_start_locked (st : Sys) (addr : Nat) (h : 0 < st.session.nestedLocks) :
    st.readDP addr READ_START =
      (Res.val none, ⟨st.session, st.replies, st.world.issueRead⟩,
       [Event.readDP addr]) := by
  rw [Sys.readDP, withLock_locked st _ h rfl]
  simp [READ_START, READ_NOW, READ_END]

/-- `readDP` in `READ_END` mode on a locked session with a non-empty
buffer: no traffic, pop the head. -/
theorem readDP_end_nonempty_locked (st : Sys) (addr v : Nat) (rest : List Nat)
    (h : 0 < st.session.nestedLocks) (hbuf : st.session.buffer = v :: rest) :
    st.readDP addr READ_END =
      (Res.val (some v),
       ⟨{ st.session with buffer := rest }, st.replies, st.world⟩, []) := by
  have hR := readC_nonempty
    ⟨{ st.session with nestedLocks := st.session.nestedLocks + 1 }, st.replies, st.world⟩
    v rest hbuf
  rw [Sys.readDP, withLock_locked st _ h (by simp [READ_END, READ_NOW, READ_START, hR])]
  simp [READ_END, READ_NOW, READ_START, hR]

/-- `readDP` in `READ_END` mode on a locked session with an empty
buffer: flush, then pop the oldest queued result. -/
theorem readDP_end_empty_locked (st : Sys) (addr v : Nat) (vs : List Nat)
    (h : 0 < st.session.nestedLocks) (hbuf : st.session.buffer = [])
    (hsrv : st.world.serverReads = v :: vs) :
    st.readDP addr READ_END =
      (Res.val (some v),
       ⟨{ st.session with buffer := vs }, st.replies,
        { st.world with serverReads := [] }⟩,
       [Event.flushReq]) := by
  have hR := readC_empty_locked
    ⟨{ st.session with nestedLocks := st.session.nestedLocks + 1 }, st.replies, st.world⟩
    v vs (by simp) hbuf hsrv
  rw [Sys.readDP, withLock_locked st _ h (by simp [READ_END, READ_NOW, READ_START, hR])]
  simp [READ_END, READ_NOW, READ_START, hR]

/-- A write body on a locked session with deferred transfers on: the
write request only, no flush, no state change. -/
theorem write_locked_deferred (st : Sys) (e : Event)
    (h : 0 < st.session.nestedLocks) (hdef : st.session.deferredTransfer = true) :
    withLock st (fun st1 =>
      let W := st1.writeC
      (W.1, W.2.1, e :: W.2.2)) = (Res.val none, st, [e]) := by
  have hwc : (⟨{ st.session with nestedLocks := st.session.nestedLocks + 1 },
      st.replies, st.world⟩ : Sys).writeC =
        (Res.val none, ⟨{ st.session with nestedLocks := st.session.nestedLocks + 1 },
          st.replies, st.world⟩, []) := by
    simp [Sys.writeC, hdef]
  rw [withLock_locked st _ h (by simp [hwc])]
  simp [hwc]

/-- A write body on a locked session with deferred transfers off: the
write request followed by exactly one flush request. -/
theorem write_locked_immediate (st : Sys) (e : Event)
    (h : 0 < st.session.nestedLocks) (hdef : st.session.deferredTransfer = false) :
    withLock st (fun st1 =>
      let W := st1.writeC
      (W.1, W.2.1, e :: W.2.2)) =
      (Res.val none,
       ⟨{ st.session with buffer := st.session.buffer ++ st.world.serverReads },
        st.replies, { st.world with serverReads := [] }⟩,
       [e, Event.flushReq]) := by
  obtain ⟨⟨vd, pd, id0, nl, la, dt, buf, nsk⟩, rps, w⟩ := st
  simp only at h hdef
  subst hdef
  have hwc : (⟨⟨vd, pd, id0, nl + 1, la, false, buf, nsk⟩, rps, w⟩ : Sys).writeC =
      (Res.val none,
       ⟨⟨vd, pd, id0, nl + 1, la, false, buf ++ w.serverReads, nsk⟩, rps,
        { w with serverReads := [] }⟩,
       [Event.flushReq]) := by
    rw [Sys.writeC, if_neg (by simp)]
    rw [flush_locked _ (by simp)]
  rw [withLock_locked _ _ h (by dsimp only; rw [hwc])]
  dsimp only
  rw [hwc]

/-- Writes with deferred transfers on change nothing and never flush:
the request trace is exactly the write commands. -/
theorem runWrites_deferred (ops : List WriteOp) :
    ∀ (st : Sys), 0 < st.session.nestedLocks →
      st.session.deferredTransfer = true →
      (∀ op ∈ ops, op.sizeOk = true) →
      st.runWrites ops = (st, ops.map WriteOp.toEvent) := by
  induction ops with
  | nil =>
    intro st _ _ _
    simp [Sys.runWrites]
  | cons op ops ih =>
    intro st h hdef hsz
    have hop : st.doWrite op = (Res.val none, st, [op.toEvent]) := by
      cases op with
      | dp a d =>
        rw [Sys.doWrite, Sys.writeDP, write_locked_deferred st _ h hdef]
        rfl
      | ap a d =>
        rw [Sys.doWrite, Sys.writeAP, write_locked_deferred st _ h hdef]
        rfl
      | mem a d size =>
        have hs : (size == 8 || size == 16 || size == 32) = true := by
          have := hsz (WriteOp.mem a d size) (by simp)
          simpa [WriteOp.sizeOk] using this
        rw [Sys.doWrite, Sys.writeMem]
        simp only [hs, Bool.not_true, Bool.false_eq_true, if_false]
        rw [write_locked_deferred st _ h hdef]
        rfl
      | block a d =>
        rw [Sys.doWrite, Sys.writeBlock32, write_locked_deferred st _ h hdef]
        rfl
    rw [Sys.runWrites, hop]
    dsimp only
    rw [ih st h hdef (fun x hx => hsz x (by simp [hx]))]
    simp

/-- The write commands themselves are never a flush request. -/
theorem toEvent_ne_flush (op : WriteOp) : op.toEvent ≠ Event.flushReq := by
  cases op <;> simp [WriteOp.toEvent]

/-- `init` on an unlocked session whose first `board_select` reply
confirms selection: store the configuration, open the owned connection
when requested, select the board once and send `dap_init`. -/
theorem init_fresh_ok (st : Sys) (freq pc : Option Nat) (la : Nat) (ns : Bool)
    (rest : List SelectReply) (h0 : st.session.nestedLocks = 0)
    (hrep : st.replies = SelectReply.ok :: rest) :
    st.init freq pc la ns =
      (Res.val none,
       ⟨{ st.session with lockAttempts := la, newSocket := ns, nestedLocks := 1 },
        rest, st.world⟩,
       (if ns then [Event.connOpen, Event.boardEnumerate st.session.vid st.session.pid]
        else [])
         ++ [Event.boardSelect st.session.iid, Event.dapInit freq pc]) := by
  rw [Sys.init, hrep]
  rw [lock_fresh_ok { st.session with lockAttempts := la, newSocket := ns } rest h0]
  simp

/-- `uninit` on a locked session: the teardown lock/unlock pair is
balanced and silent, `dap_uninit` is sent, and the owned connection is
closed when the session has one; the state is unchanged. -/
theorem uninit_locked (st : Sys) (h : 0 < st.session.nestedLocks) :
    st.uninit =
      (Res.val none, st,
       Event.dapUninit ::
         (if st.session.newSocket then [Event.connClose] else [])) := by
  obtain ⟨⟨vd, pd, id0, nl, la, dt, buf, nsk⟩, rps, w⟩ := st
  simp only at h
  rw [Sys.uninit, withLock_locked _ _ h rfl]
  cases nsk <;> simp

/-! ## Claims about deferred transfer, read pipelining, and lifecycle -/

/-- C4: on a locked session with an empty result buffer, three
`READ_START` read requests followed by three `READ_END` consuming calls
return the results of the three requests in the exact order the
requests were issued, even though all three requests precede the first
flush; and in general each consuming `_read` pops the oldest buffered
result when the buffer is non-empty, and otherwise first flushes,
appending the reply reads in received order, then pops the oldest,
never reordering the pending results. -/
theorem read_pipelining_fifo :
    (∀ (s : Session) (replies : List SelectReply) (v1 v2 v3 : Nat) (vs : List Nat)
        (a1 a2 a3 b1 b2 b3 : Nat),
      0 < s.nestedLocks → s.buffer = [] →
      (let st0 : Sys := ⟨s, replies, ⟨v1 :: v2 :: v3 :: vs, []⟩⟩
       let st1 := (st0.readDP a1 READ_START).2.1
       let st2 := (st1.readDP a2 READ_START).2.1
       let st3 := (st2.readDP a3 READ_START).2.1
       let r1 := st3.readDP b1 READ_END
       let r2 := r1.2.1.readDP b2 READ_END
       let r3 := r2.2.1.readDP b3 READ_END
       r1.1 = Res.val (some v1) ∧ r2.1 = Res.val (some v2) ∧ r3.1 = Res.val (some v3)))
    ∧ (∀ (st : Sys) (v : Nat) (rest : List Nat),
        st.session.buffer = v :: rest →
        st.readC = (Res.val (some v),
          ⟨{ st.session with buffer := rest }, st.replies, st.world⟩, []))
    ∧ (∀ (st : Sys) (v : Nat) (vs : List Nat),
        0 < st.session.nestedLocks → st.session.buffer = [] →
        st.world.serverReads = v :: vs →
        st.readC = (Res.val (some v),
          ⟨{ st.session with buffer := vs }, st.replies,
           { st.world with serverReads := [] }⟩, [Event.flushReq])) := by
  refine ⟨?_, fun st v rest hbuf => readC_nonempty st v rest hbuf,
    fun st v vs h hbuf hsrv => readC_empty_locked st v vs h hbuf hsrv⟩
  intro s replies v1 v2 v3 vs a1 a2 a3 b1 b2 b3 hdep hbuf
  dsimp only
  have e1 : Sys.readDP ⟨s, replies, ⟨v1 :: v2 :: v3 :: vs, []⟩⟩ a1 READ_START =
      (Res.val none, ⟨s, replies, ⟨v2 :: v3 :: vs, [v1]⟩⟩, [Event.readDP a1]) := by
    rw [readDP_start_locked _ _ hdep]
    rfl
  have e2 : Sys.readDP ⟨s, replies, ⟨v2 :: v3 :: vs, [v1]⟩⟩ a2 READ_START =
      (Res.val none, ⟨s, replies, ⟨v3 :: vs, [v1, v2]⟩⟩, [Event.readDP a2]) := by
    rw [readDP_start_locked _ _ hdep]
    rfl
  have e3 : Sys.readDP ⟨s, replies, ⟨v3 :: vs, [v1, v2]⟩⟩ a3 READ_START =
      (Res.val none, ⟨s, replies, ⟨vs, [v1, v2, v3]⟩⟩, [Event.readDP a3]) := by
    rw [readDP_start_locked _ _ hdep]
    rfl
  have f1 : Sys.readDP ⟨s, replies, ⟨vs, [v1, v2, v3]⟩⟩ b1 READ_END =
      (Res.val (some v1), ⟨{ s with buffer := [v2, v3] }, replies, ⟨vs, []⟩⟩,
       [Event.flushReq]) := by
    rw [readDP_end_empty_locked _ _ v1 [v2, v3] hdep hbuf rfl]
  have f2 : Sys.readDP ⟨{ s with buffer := [v2, v3] }, replies, ⟨vs, []⟩⟩ b2 READ_END =
      (Res.val (some v2), ⟨{ s with buffer := [v3] }, replies, ⟨vs, []⟩⟩, []) := by
    rw [readDP_end_nonempty_locked _ _ v2 [v3] hdep rfl]
  have f3 : Sys.readDP ⟨{ s with buffer := [v3] }, replies, ⟨vs, []⟩⟩ b3 READ_END =
      (Res.val (some v3), ⟨{ s with buffer := [] }, replies, ⟨vs, []⟩⟩, []) := by
    rw [readDP_end_nonempty_locked _ _ v3 [] hdep rfl]
  rw [e1]
  dsimp only
  rw [e2]
  dsimp only
  rw [e3]
  dsimp only
  rw [f1]
  dsimp only
  rw [f2]
  dsimp only
  rw [f3]
  exact ⟨rfl, rfl, rfl⟩

/-- C4 witness: three pipelined reads on the locked demo session with
oracle values `10, 20, 30` come back in issue order. -/
theorem read_pipelining_fifo_witness :
    ((((Sys.readDP ⟨{ demoSession with nestedLocks := 1 }, [], ⟨[10, 20, 30], []⟩⟩
          0 READ_START).2.1.readDP 1 READ_START).2.1.readDP 2
          READ_START).2.1.readDP 3 READ_END).1 = Res.val (some 10) :=
  (read_pipelining_fifo.1 { demoSession with nestedLocks := 1 } [] 10 20 30 [] 0 1 2 3 4 5
    (by decide) rfl).1

/-- C5: on a locked session with `deferredTransfer` false, each write
operation issues its write command followed by exactly one flush
request; with `deferredTransfer` true, any number of consecutive write
operations issues zero flush requests and leaves the state unchanged,
until an explicit `flush()` (one flush request) or a consuming read
with an empty result buffer (one flush request) forces one. -/
theorem write_flush_discipline :
    (∀ (st : Sys) (addr data : Nat), 0 < st.session.nestedLocks →
      st.session.deferredTransfer = false →
      (st.writeDP addr data).2.2 = [Event.writeDP addr data, Event.flushReq])
    ∧ (∀ (st : Sys) (addr data : Nat), 0 < st.session.nestedLocks →
      st.session.deferredTransfer = false →
      (st.writeAP addr data).2.2 = [Event.writeAP addr data, Event.flushReq])
    ∧ (∀ (st : Sys) (addr data size : Nat), 0 < st.session.nestedLocks →
      st.session.deferredTransfer = false →
      (size == 8 || size == 16 || size == 32) = true →
      (st.writeMem addr data size).2.2 = [Event.writeMem size addr data, Event.flushReq])
    ∧ (∀ (st : Sys) (addr : Nat) (data : List Nat), 0 < st.session.nestedLocks →
      st.session.deferredTransfer = false →
      (st.writeBlock32 addr data).2.2 = [Event.writeBlock addr data, Event.flushReq])
    ∧ (∀ (st : Sys) (ops : List WriteOp), 0 < st.session.nestedLocks →
      st.session.deferredTransfer = true → (∀ op ∈ ops, op.sizeOk = true) →
      (st.runWrites ops).2.count Event.flushReq = 0 ∧ (st.runWrites ops).1 = st)
    ∧ (∀ (st : Sys), 0 < st.session.nestedLocks →
      (st.flush).2.2 = [Event.flushReq])
    ∧ (∀ (st : Sys) (v : Nat) (vs : List Nat), 0 < st.session.nestedLocks →
      st.session.buffer = [] → st.world.serverReads = v :: vs →
      (st.readC).2.2 = [Event.flushReq]) := by
  refine ⟨?_, ?_, ?_, ?_, ?_, ?_, ?_⟩
  · intro st addr data h hdef
    rw [Sys.writeDP, write_locked_immediate st _ h hdef]
  · intro st addr data h hdef
    rw [Sys.writeAP, write_locked_immediate st _ h hdef]
  · intro st addr data size h hdef hs
    rw [Sys.writeMem]
    simp only [hs, Bool.not_true, Bool.false_eq_true, if_false]
    rw [write_locked_immediate st _ h hdef]
  · intro st addr data h hdef
    rw [Sys.writeBlock32, write_locked_immediate st _ h hdef]
  · intro st ops h hdef hsz
    rw [runWrites_deferred ops st h hdef hsz]
    refine ⟨List.count_eq_zero.mpr ?_, rfl⟩
    intro hmem
    obtain ⟨op, _, hop⟩ := List.mem_map.mp hmem
    exact toEvent_ne_flush op hop
  · intro st h
    rw [flush_locked st h]
  · intro st v vs h hbuf hsrv
    rw [readC_empty_locked st v vs h hbuf hsrv]

/-- C5 witness: one immediate write on the locked demo session issues
its command then one flush; two deferred writes issue no flush. -/
theorem write_flush_discipline_witness :
    ((demoSysLocked.writeDP 4 5).2.2 = [Event.writeDP 4 5, Event.flushReq])
    ∧ ((demoSysDeferred.runWrites [WriteOp.dp 4 5, WriteOp.ap 6 7]).2.count
        Event.flushReq = 0) :=
  ⟨write_flush_discipline.1 demoSysLocked 4 5 (by decide) rfl,
   (write_flush_discipline.2.2.2.2.1 demoSysDeferred [WriteOp.dp 4 5, WriteOp.ap 6 7]
      (by decide) rfl (by decide)).1⟩

/-- C6 (amended): after a successful `init()` followed by `uninit()`
with no intervening `lock()`/`unlock()` calls, `uninit` releases
exactly the lock it acquires during teardown: the depth returns to the
value `init` left it at, namely `1`, because `init` deliberately leaves
the session locked; no `board_deselect` is issued, so the session ends
still locked rather than unlocked; and when the session owns its
connection (`new_socket`), that connection is closed.  The original
claim that the session ends unlocked at depth `0` with `board_deselect`
issued fails; see the counterexample. -/
theorem init_uninit_lock_balance (s : Session) (w : World) (rest : List SelectReply)
    (freq pc : Option Nat) (la : Nat) (ns : Bool) (h0 : s.nestedLocks = 0) :
    ((Sys.init ⟨s, SelectReply.ok :: rest, w⟩ freq pc la ns).1 = Res.val none)
    ∧ ((Sys.init ⟨s, SelectReply.ok :: rest, w⟩ freq pc la ns).2.1.session.nestedLocks = 1)
    ∧ (((Sys.init ⟨s, SelectReply.ok :: rest, w⟩ freq pc la ns).2.1.uninit).1
        = Res.val none)
    ∧ (((Sys.init ⟨s, SelectReply.ok :: rest, w⟩ freq pc la ns).2.1.uninit).2.1.session.nestedLocks
        = 1)
    ∧ (Event.boardDeselect ∉
        ((Sys.init ⟨s, SelectReply.ok :: rest, w⟩ freq pc la ns).2.1.uninit).2.2)
    ∧ (ns = true → Event.connClose ∈
        ((Sys.init ⟨s, SelectReply.ok :: rest, w⟩ freq pc la ns).2.1.uninit).2.2) := by
  have hI : Sys.init ⟨s, SelectReply.ok :: rest, w⟩ freq pc la ns =
      (Res.val none,
       ⟨{ s with lockAttempts := la, newSocket := ns, nestedLocks := 1 }, rest, w⟩,
       (if ns then [Event.connOpen, Event.boardEnumerate s.vid s.pid] else [])
         ++ [Event.boardSelect s.iid, Event.dapInit freq pc]) :=
    init_fresh_ok ⟨s, SelectReply.ok :: rest, w⟩ freq pc la ns rest h0 rfl
  have hU : (⟨{ s with lockAttempts := la, newSocket := ns, nestedLocks := 1 },
        rest, w⟩ : Sys).uninit =
      (Res.val none,
       ⟨{ s with lockAttempts := la, newSocket := ns, nestedLocks := 1 }, rest, w⟩,
       Event.dapUninit :: (if ns then [Event.connClose] else [])) :=
    uninit_locked _ (by simp)
  rw [hI]
  dsimp only
  rw [hU]
  refine ⟨rfl, rfl, rfl, rfl, ?_, ?_⟩
  · cases ns <;> simp
  · intro hns
    subst hns
    simp

/-- C6 witness: the demo run ends with the teardown lock released back
to depth `1` (so not negative and balanced) and the owned connection
closed. -/
theorem init_uninit_lock_balance_witness :
    ((Sys.init ⟨demoSession, [SelectReply.ok], demoWorld⟩ none none 5
        true).2.1.uninit).2.1.session.nestedLocks = 1 :=
  (init_uninit_lock_balance demoSession demoWorld [] none none 5 true rfl).2.2.2.1

/-- C6 counterexample: after `init()` then `uninit()` on the demo
session, the depth is not `0` (the session is still locked) and no
`board_deselect` was ever issued to the broker, contradicting the
original claim. -/
theorem init_uninit_unlocks_counterexample :
    ¬(((Sys.init ⟨demoSession, [SelectReply.ok], demoWorld⟩ none none 5
        true).2.1.uninit).2.1.session.nestedLocks = 0)
    ∧ Event.boardDeselect ∉
        (Sys.init ⟨demoSession, [SelectReply.ok], demoWorld⟩ none none 5 true).2.2
    ∧ Event.boardDeselect ∉
        ((Sys.init ⟨demoSession, [SelectReply.ok], demoWorld⟩ none none 5
          true).2.1.uninit).2.2 := by
  decide

/-! ## Claims about the unix socket layer -/

/-- C7 (amended): `recv` returning the empty chunk flips `alive()` to
false; but subsequent `send` and `recv` calls are delegated to the OS
socket unchanged: the wrapper performs no liveness check and never
raises the `ConnectionFailure` of the spec taxonomy, so a subsequent
`send` can succeed and a subsequent `recv` simply returns empty again. -/
theorem recv_empty_flips_alive (c : UnixConnection) (data : List Nat) (size1 : Nat) :
    ((c.recv size1).1 = ConnRes.ok [] → (c.recv size1).2.isalive = false)
    ∧ ((c.send data).1 ≠ ConnRes.connectionFailure)
    ∧ ((c.recv size1).1 ≠ ConnRes.connectionFailure) := by
  obtain ⟨⟨rd, sr, snt⟩, al⟩ := c
  refine ⟨?_, ?_, ?_⟩
  · intro h
    cases rd with
    | nil => simp [UnixConnection.recv, OSStream.osRecv]
    | cons d rest =>
      simp [UnixConnection.recv, OSStream.osRecv] at h ⊢
      simp [h]
  · cases sr with
    | nil => simp [UnixConnection.send, OSStream.osSendall]
    | cons b rest =>
      cases b <;> simp [UnixConnection.send, OSStream.osSendall]
  · cases rd <;> simp [UnixConnection.recv, OSStream.osRecv]

/-- C7 witness: a `recv` that hits end-of-stream leaves the connection
reported dead. -/
theorem recv_empty_flips_alive_witness :
    ((⟨⟨[[]], [], []⟩, true⟩ : UnixConnection).recv 100).2.isalive = false :=
  (recv_empty_flips_alive ⟨⟨[[]], [], []⟩, true⟩ [1] 100).1 rfl

/-- C7 counterexample: after the peer closes, `recv` returns empty and
flips `alive`, yet the next `send` succeeds through the OS socket and
the next `recv` returns empty again; neither call fails with
`ConnectionFailure`, contrary to the claim. -/
theorem recv_then_send_counterexample :
    (((⟨⟨[[]], [], []⟩, true⟩ : UnixConnection).recv 100).2.isalive = false)
    ∧ ((((⟨⟨[[]], [], []⟩, true⟩ : UnixConnection).recv 100).2.send [1]).1
        = ConnRes.ok [])
    ∧ ((((⟨⟨[[]], [], []⟩, true⟩ : UnixConnection).recv 100).2.recv 100).1
        = ConnRes.ok [])
    ∧ ¬((((⟨⟨[[]], [], []⟩, true⟩ : UnixConnection).recv 100).2.send [1]).1
        = ConnRes.connectionFailure)
    ∧ ¬((((⟨⟨[[]], [], []⟩, true⟩ : UnixConnection).recv 100).2.recv 100).1
        = ConnRes.connectionFailure) := by
  decide

/-- C8 (amended): `open()` removes a pre-existing file at the bound
path if and only if that file is a socket special file and writable;
for a path holding a non-socket file, `open()` never unlinks the file
(and the bind fails, leaving the file in place); for a path holding a
writable stale socket file, `open()` succeeds and replaces it with a
fresh socket.  The original claim promised success for every stale
socket file; an unwritable one is not removed, so the bind fails; see
the counterexample. -/
theorem openServer_stale_socket (srv : UnixServer) (fs : FS) :
    (OpenEvent.unlink ∈ (srv.openServer fs).2.2.2 ↔
      (∃ f, fs.file = some f ∧ f.isSock = true ∧ f.writable = true))
    ∧ (∀ f, fs.file = some f → f.isSock = false →
        (srv.openServer fs).2.2.1.file = some f
        ∧ (srv.openServer fs).1 = false
        ∧ OpenEvent.unlink ∉ (srv.openServer fs).2.2.2)
    ∧ (∀ f, fs.file = some f → f.isSock = true → f.writable = true →
        (srv.openServer fs).1 = true
        ∧ (srv.openServer fs).2.2.1.file = some ⟨true, true⟩
        ∧ (srv.openServer fs).2.1.isalive = true)
    ∧ (fs.file = none → (srv.openServer fs).1 = true) := by
  obtain ⟨f⟩ := fs
  rcases f with _ | ⟨sk, wr⟩
  · simp [UnixServer.openServer]
  · cases sk <;> cases wr <;> simp [UnixServer.openServer]

/-- C8 witness: opening over a writable stale socket file succeeds and
replaces it. -/
theorem openServer_stale_socket_witness :
    ((⟨false, []⟩ : UnixServer).openServer ⟨some ⟨true, true⟩⟩).1 = true :=
  ((openServer_stale_socket ⟨false, []⟩ ⟨some ⟨true, true⟩⟩).2.2.1
    ⟨true, true⟩ rfl rfl rfl).1

/-- C8 counterexample: a stale socket file that is not writable is left
in place and `open()` fails with the bind error instead of succeeding,
contradicting the unconditional stale-socket clause of the claim. -/
theorem openServer_unwritable_socket_counterexample :
    (((⟨false, []⟩ : UnixServer).openServer ⟨some ⟨true, false⟩⟩).1 = false)
    ∧ (((⟨false, []⟩ : UnixServer).openServer ⟨some ⟨true, false⟩⟩).2.2.1.file
        = some ⟨true, false⟩)
    ∧ OpenEvent.unlink ∉
        ((⟨false, []⟩ : UnixServer).openServer ⟨some ⟨true, false⟩⟩).2.2.2 := by
  decide

/-- C9: `shutdown()` sets `alive` to false and writes the sentinel into
the interrupt pair; an `accept()` call that wakes after `shutdown()`
has run returns the explicit no-connection result instead of accepting
a stream, and `accept` never returns a wrapped connection once `alive`
is false. -/
theorem shutdown_wakes_accept (srv : UnixServer) (pending : Option OSStream) :
    ((srv.shutdown).isalive = false)
    ∧ ((srv.shutdown).pipe = srv.pipe ++ ["shutdown"])
    ∧ ((srv.shutdown).accept pending = none)
    ∧ (srv.isalive = false → srv.accept pending = none) := by
  refine ⟨rfl, rfl, ?_, ?_⟩
  · simp [UnixServer.accept, UnixServer.shutdown]
  · intro h
    simp [UnixServer.accept, h]

/-- C9 witness: a dead listener refuses a pending stream. -/
theorem shutdown_wakes_accept_witness :
    (⟨false, []⟩ : UnixServer).accept (some ⟨[], [], []⟩) = none :=
  (shutdown_wakes_accept ⟨false, []⟩ (some ⟨[], [], []⟩)).2.2.2 rfl

end PyDAPLink
